import Mathlib

/-!
Verification development for src/db_init.py: a single schema-initialization
routine over an embedded relational storage engine (sqlite3).  The storage
engine is modelled as a map from file-system paths to database files; a
database file is a list of tables; the routine is embedded step by step
(connect, execute the CREATE TABLE IF NOT EXISTS statement, commit, close),
with storage-access failures injected at each engine call through a
Faults environment.
-/

namespace DbInit

/-- A file-system path (the location of a database file). -/
abbrev Path := String

/-- One column of a table schema: its name, its declared type, and whether
it carries the PRIMARY KEY constraint. -/
structure Column where
  name : String
  ctype : String
  isPrimaryKey : Bool
deriving DecidableEq

/-- A table of a database file: its name, its columns in declaration order,
and its stored rows (each row one text value per column). -/
structure Table where
  name : String
  columns : List Column
  rows : List (List String)
deriving DecidableEq

/-- A database file: the list of its tables. -/
structure Database where
  tables : List Table
deriving DecidableEq

/-- A freshly created database file holds no tables. -/
def emptyDb : Database := ⟨[]⟩

/-- Durable storage: an association of paths to database files. -/
structure World where
  files : List (Path × Database)
deriving DecidableEq

/-- Look a path up in an association list of database files. -/
def lookupFile : List (Path × Database) → Path → Option Database
  | [], _ => none
  | (q, d) :: rest, p => if q = p then some d else lookupFile rest p

/-- Write a database file at a path: replace the existing entry, or append a
new one when the path is absent. -/
def storeFile : List (Path × Database) → Path → Database → List (Path × Database)
  | [], p, d => [(p, d)]
  | (q, e) :: rest, p, d =>
      if q = p then (q, d) :: rest else (q, e) :: storeFile rest p d

/-- The database file durable storage holds at a path, when one exists. -/
def World.lookup (w : World) (p : Path) : Option Database :=
  lookupFile w.files p

/-- Durable storage after writing a database file at a path. -/
def World.store (w : World) (p : Path) (d : Database) : World :=
  ⟨storeFile w.files p d⟩

/-- The paths at which a file exists on durable storage. -/
def World.paths (w : World) : List Path :=
  w.files.map Prod.fst

/-- The tables visible at a path: those of the database file there, none
when no file exists. -/
def World.tablesAt (w : World) (p : Path) : List Table :=
  match w.lookup p with
  | some d => d.tables
  | none => []

/-- The table named subscribers visible at a path, when one exists. -/
def World.subscribersAt (w : World) (p : Path) : Option Table :=
  (w.tablesAt p).find? fun t => t.name == "subscribers"

/-- A storage-access error of the engine (sqlite3 raises these as
exceptions: permission denied, invalid path, disk full, ...). -/
inductive DbError where
  | operationalError : String → DbError
deriving DecidableEq

/-- An open connection: the path it points at and its view of the database
file there. -/
structure Connection where
  path : Path
  db : Database
deriving DecidableEq

/-- sqlite3.connect: opens the database file at a path, creating an empty
file there when none exists, and returns the updated storage together with
the connection. -/
def sqliteConnect (p : Path) (w : World) : World × Connection :=
  match w.lookup p with
  | some d => (w, ⟨p, d⟩)
  | none => (w.store p emptyDb, ⟨p, emptyDb⟩)

/-- A CREATE TABLE statement: the table name, whether the IF NOT EXISTS
clause is present, and the column definitions. -/
structure CreateTableStmt where
  table : String
  ifNotExists : Bool
  columns : List Column
deriving DecidableEq

/-- Whether a database holds a table of the given name. -/
def Database.hasTable (d : Database) (n : String) : Bool :=
  (d.tables.find? fun t => t.name == n).isSome

/-- Engine semantics of a CREATE TABLE statement: when a table of that name
already exists the statement is a no-op under IF NOT EXISTS (whatever that
table's schema) and an error without it; otherwise a new empty table with
the statement's columns is appended. -/
def execCreate (s : CreateTableStmt) (d : Database) : Except DbError Database :=
  match d.hasTable s.table, s.ifNotExists with
  | true, true => .ok d
  | true, false => .error (.operationalError ("table " ++ s.table ++ " already exists"))
  | false, _ => .ok ⟨d.tables ++ [⟨s.table, s.columns, []⟩]⟩

/-- The parsed form of the SQL text of src/db_init.py lines 9-15:
CREATE TABLE IF NOT EXISTS subscribers (row_key TEXT PRIMARY KEY,
sub_id TEXT, act_dt TEXT). -/
def subscribersStmt : CreateTableStmt :=
  ⟨"subscribers", true,
    [⟨"row_key", "TEXT", true⟩, ⟨"sub_id", "TEXT", false⟩, ⟨"act_dt", "TEXT", false⟩]⟩

/-- The empty subscribers table the statement creates on a database that
does not hold one yet. -/
def subscribersTable : Table :=
  ⟨"subscribers", subscribersStmt.columns, []⟩

/-- Storage-access failures injected by the environment: the error the
engine raises at the connect, the execute or the commit call of the routine
(none means that call succeeds). -/
structure Faults where
  onConnect : Option DbError
  onExecute : Option DbError
  onCommit : Option DbError
deriving DecidableEq

/-- The run in which every engine call succeeds. -/
def noFaults : Faults := ⟨none, none, none⟩

/-- Equality of Except values is decidable when it is on both sides. -/
instance {ε α : Type} [DecidableEq ε] [DecidableEq α] : DecidableEq (Except ε α) := fun x y =>
  match x, y with
  | .ok a, .ok b => if h : a = b then .isTrue (by rw [h]) else .isFalse (by simp [h])
  | .error a, .error b => if h : a = b then .isTrue (by rw [h]) else .isFalse (by simp [h])
  | .ok _, .error _ => .isFalse (by simp)
  | .error _, .ok _ => .isFalse (by simp)

/-- The observable outcome of one invocation of the routine: the returned
value (Python's None becomes the unit value) or the propagated exception,
durable storage afterwards, anything the routine printed, whether a
connection was acquired, and whether conn.close() was reached. -/
structure RunResult where
  result : Except DbError Unit
  world : World
  output : List String
  connAcquired : Bool
  connClosed : Bool
deriving DecidableEq

/-- The body of initialize_db (src/db_init.py lines 5-17) with the storage
location as a parameter: conn = sqlite3.connect(p); cursor = conn.cursor();
cursor.execute(the CREATE TABLE IF NOT EXISTS statement); conn.commit();
conn.close().  The function body has no try/except and no try/finally: the
first error ends the routine at that point and propagates, and conn.close()
runs only after a successful commit.  The commit makes the connection's
pending database state durable; an error before the commit call leaves
durable storage as the connect call left it. -/
def initializeAt (f : Faults) (p : Path) (w : World) : RunResult :=
  match f.onConnect with
  | some e => ⟨.error e, w, [], false, false⟩
  | none =>
    match sqliteConnect p w, f.onExecute with
    | (w1, _), some e => ⟨.error e, w1, [], true, false⟩
    | (w1, conn), none =>
      match execCreate subscribersStmt conn.db, f.onCommit with
      | .error e, _ => ⟨.error e, w1, [], true, false⟩
      | .ok _, some e => ⟨.error e, w1, [], true, false⟩
      | .ok d, none => ⟨.ok (), w1.store p d, [], true, true⟩

/-- src/db_init.py line 3: the hard-coded storage location. -/
def db_path : Path := "/your/path/to/data.db"

/-- initialize_db (src/db_init.py lines 5-17): the routine takes no
parameters and reads the module-level constant db_path. -/
def initialize_db (f : Faults) (w : World) : RunResult :=
  initializeAt f db_path w

/-- The fixed confirmation message printed by the __main__ branch. -/
def successMessage : String := "Database initialized successfully!"

/-- The top-level statements of src/db_init.py in source order. -/
inductive TopStmt where
  | importSqlite3
  | bindDbPath
  | defInitializeDb
  | mainGuard
deriving DecidableEq

/-- The module body: import sqlite3 (line 1); db_path = ... (line 3); def
initialize_db (lines 5-17); the __main__ guard (lines 19-21). -/
def moduleBody : List TopStmt :=
  [.importSqlite3, .bindDbPath, .defInitializeDb, .mainGuard]

/-- The state of the Python process while the module's top level runs: the
storage world, standard output, the module bindings made so far, and the
uncaught exception, when one was raised (an uncaught exception terminates
the process abnormally, with a non-zero exit status). -/
structure ProcState where
  world : World
  output : List String
  boundDbPath : Option Path
  definedInitializeDb : Bool
  uncaught : Option DbError
deriving DecidableEq

/-- Evaluate one top-level statement.  asMain is whether the file runs as a
script (then __name__ == '__main__' holds and the guard's body runs): the
guard calls initialize_db() and then, only when it returned normally,
prints the confirmation message; an exception escapes uncaught. -/
def evalTop (asMain : Bool) (f : Faults) (st : ProcState) : TopStmt → ProcState
  | .importSqlite3 => st
  | .bindDbPath => { st with boundDbPath := some db_path }
  | .defInitializeDb => { st with definedInitializeDb := true }
  | .mainGuard =>
    if asMain then
      let r := initialize_db f st.world
      match r.result with
      | .ok _ =>
        { st with world := r.world, output := st.output ++ r.output ++ [successMessage] }
      | .error e =>
        { st with world := r.world, output := st.output ++ r.output, uncaught := some e }
    else st

/-- The process state before the first statement of the module runs. -/
def initState (w : World) : ProcState := ⟨w, [], none, false, none⟩

/-- Evaluating src/db_init.py from top to bottom: importing the module is
runModule false, executing it as a script is runModule true. -/
def runModule (asMain : Bool) (f : Faults) (w : World) : ProcState :=
  moduleBody.foldl (evalTop asMain f) (initState w)

/-! Helper lemmas about the storage map and the engine. -/

/-- Writing a file and looking the same path up yields that file. -/
theorem lookupFile_storeFile_self (l : List (Path × Database)) (p : Path) (d : Database) :
    lookupFile (storeFile l p d) p = some d := by
  induction l with
  | nil => simp [storeFile, lookupFile]
  | cons hd tl ih =>
    rcases hd with ⟨q, e⟩
    by_cases h : q = p
    · simp [storeFile, lookupFile, h]
    · simp [storeFile, lookupFile, h, ih]

/-- Writing back the very file a path already holds changes nothing. -/
theorem storeFile_eq_of_lookup (l : List (Path × Database)) (p : Path) (d : Database)
    (h : lookupFile l p = some d) : storeFile l p d = l := by
  induction l with
  | nil => simp [lookupFile] at h
  | cons hd tl ih =>
    rcases hd with ⟨q, e⟩
    by_cases hq : q = p
    · simp [lookupFile, hq] at h
      simp [storeFile, hq, h]
    · simp [lookupFile, hq] at h
      simp [storeFile, hq, ih h]

/-- Writing a file at a path that already holds one keeps the set of paths. -/
theorem map_fst_storeFile (l : List (Path × Database)) (p : Path) (d : Database)
    (h : (lookupFile l p).isSome = true) :
    (storeFile l p d).map Prod.fst = l.map Prod.fst := by
  induction l with
  | nil => simp [lookupFile] at h
  | cons hd tl ih =>
    rcases hd with ⟨q, e⟩
    by_cases hq : q = p
    · simp [storeFile, hq]
    · simp [lookupFile, hq] at h
      simp [storeFile, hq, ih h]

/-- World version of lookupFile_storeFile_self. -/
theorem World.lookup_store_self (w : World) (p : Path) (d : Database) :
    (w.store p d).lookup p = some d :=
  lookupFile_storeFile_self w.files p d

/-- World version of storeFile_eq_of_lookup. -/
theorem World.store_eq_self (w : World) (p : Path) (d : Database)
    (h : w.lookup p = some d) : w.store p d = w := by
  cases w with
  | mk files => exact congrArg World.mk (storeFile_eq_of_lookup files p d h)

/-- World version of map_fst_storeFile. -/
theorem World.paths_store (w : World) (p : Path) (d : Database)
    (h : (w.lookup p).isSome = true) : (w.store p d).paths = w.paths :=
  map_fst_storeFile w.files p d h

/-- find? over an append whose first part holds no hit searches the second. -/
theorem find?_append_of_none {α : Type} (q : α → Bool) (l1 l2 : List α)
    (h : l1.find? q = none) : (l1 ++ l2).find? q = l2.find? q := by
  induction l1 with
  | nil => simp
  | cons a tl ih =>
    by_cases hq : q a = true
    · rw [List.find?_cons_of_pos _ hq] at h
      simp at h
    · rw [List.find?_cons_of_neg _ hq] at h
      rw [List.cons_append, List.find?_cons_of_neg _ hq]
      exact ih h

/-- The CREATE TABLE IF NOT EXISTS subscribers statement never errors: it
returns the database unchanged when the table exists and appends the empty
subscribers table otherwise. -/
theorem execCreate_subscribers (d : Database) :
    execCreate subscribersStmt d =
      .ok (if d.hasTable "subscribers" then d else ⟨d.tables ++ [subscribersTable]⟩) := by
  cases h : d.hasTable "subscribers" <;>
    simp [execCreate, subscribersStmt, subscribersTable, h]

/-- The routine never prints anything. -/
theorem initializeAt_output (f : Faults) (p : Path) (w : World) :
    (initializeAt f p w).output = [] := by
  rcases f with ⟨fc, fe, fm⟩
  rcases fc with _ | ec <;> rcases fe with _ | ee <;> rcases fm with _ | em <;>
    cases hl : w.lookup p <;>
      simp [initializeAt, sqliteConnect, hl, execCreate_subscribers]

/-! Claim theorems. -/

/-- A run in which the engine raises a disk I/O error at the execute call. -/
def execFault : Faults := ⟨none, some (.operationalError "disk I/O error"), none⟩

/-- C1: counterexample.  When the engine raises an error at the execute
call, the connection was acquired, the error propagates, and conn.close()
is never reached: src/db_init.py has no try/finally, so the connection is
not released on this exit path. -/
theorem C1_counterexample :
    (initialize_db execFault ⟨[]⟩).connAcquired = true ∧
    (initialize_db execFault ⟨[]⟩).connClosed = false ∧
    (initialize_db execFault ⟨[]⟩).result = .error (.operationalError "disk I/O error") := by
  decide

/-- C1 (amended): the storage connection is released exactly on the
successful exit path — conn.close() runs if and only if the connect, the
statement execution and the commit all succeed; when an error occurs after
the connection was acquired, the routine propagates it without releasing
the connection. -/
theorem C1_close_only_on_success (f : Faults) (p : Path) (w : World) :
    ((initializeAt f p w).connClosed = true ↔ (initializeAt f p w).result = .ok ()) ∧
    (f.onConnect = none → (initializeAt f p w).connAcquired = true) := by
  rcases f with ⟨fc, fe, fm⟩
  rcases fc with _ | ec <;> rcases fe with _ | ee <;> rcases fm with _ | em <;>
    cases hl : w.lookup p <;>
      simp [initializeAt, sqliteConnect, hl, execCreate_subscribers]

/-- C2: idempotence.  Against a fresh location, the first fault-free run
succeeds and leaves exactly one table named subscribers, with the three
specified columns; the second run succeeds as well and changes durable
storage not at all. -/
theorem C2_idempotent (p : Path) (w : World) (h : w.lookup p = none) :
    (initializeAt noFaults p w).result = .ok () ∧
    ((initializeAt noFaults p w).world.tablesAt p).filter
      (fun t => t.name == "subscribers") = [subscribersTable] ∧
    (initializeAt noFaults p (initializeAt noFaults p w).world).result = .ok () ∧
    (initializeAt noFaults p (initializeAt noFaults p w).world).world =
      (initializeAt noFaults p w).world := by
  have hT : Database.hasTable ⟨[subscribersTable]⟩ "subscribers" = true := by decide
  have hF : ([subscribersTable].filter fun t => t.name == "subscribers") =
      [subscribersTable] := by decide
  have h1 : initializeAt noFaults p w =
      ⟨.ok (), (w.store p emptyDb).store p ⟨[subscribersTable]⟩, [], true, true⟩ := by
    simp [initializeAt, noFaults, sqliteConnect, h, execCreate_subscribers,
      Database.hasTable, emptyDb]
  have hw2 := World.lookup_store_self (w.store p emptyDb) p ⟨[subscribersTable]⟩
  have h2 : initializeAt noFaults p ((w.store p emptyDb).store p ⟨[subscribersTable]⟩) =
      ⟨.ok (), (w.store p emptyDb).store p ⟨[subscribersTable]⟩, [], true, true⟩ := by
    simp [initializeAt, noFaults, sqliteConnect, hw2, execCreate_subscribers, hT,
      World.store_eq_self _ _ _ hw2]
  refine ⟨by simp [h1], ?_, by simp [h1, h2], by simp [h1, h2]⟩
  simp [h1, World.tablesAt, hw2, hF]

/-- Witness for C2: the fresh location /tmp/test.db over empty storage. -/
theorem C2_idempotent_witness :
    (initializeAt noFaults "/tmp/test.db" ⟨[]⟩).result = .ok () ∧
    ((initializeAt noFaults "/tmp/test.db" ⟨[]⟩).world.tablesAt "/tmp/test.db").filter
      (fun t => t.name == "subscribers") = [subscribersTable] ∧
    (initializeAt noFaults "/tmp/test.db"
      (initializeAt noFaults "/tmp/test.db" ⟨[]⟩).world).result = .ok () ∧
    (initializeAt noFaults "/tmp/test.db"
      (initializeAt noFaults "/tmp/test.db" ⟨[]⟩).world).world =
      (initializeAt noFaults "/tmp/test.db" ⟨[]⟩).world :=
  C2_idempotent "/tmp/test.db" ⟨[]⟩ rfl

/-- A schema that does not match the three specified columns. -/
def mismatchedColumns : List Column := [⟨"x", "INTEGER", false⟩]

/-- Storage whose file at db_path already holds a subscribers table with
the mismatched schema. -/
def mismatchedWorld : World := ⟨[(db_path, ⟨[⟨"subscribers", mismatchedColumns, []⟩]⟩)]⟩

/-- C3: counterexample.  Against a location that already holds a table
named subscribers with a single integer column, the run succeeds (CREATE
TABLE IF NOT EXISTS is a no-op) yet the table's columns are not the three
specified ones: the claim fails for this successful run. -/
theorem C3_counterexample :
    (initialize_db noFaults mismatchedWorld).result = .ok () ∧
    ((initialize_db noFaults mismatchedWorld).world.subscribersAt db_path).map
      Table.columns = some mismatchedColumns ∧
    mismatchedColumns ≠ subscribersStmt.columns := by
  decide

/-- C3 (amended): after every successful run against a location that does
not already hold a table named subscribers, the storage file contains the
subscribers table with exactly the three text columns row_key, sub_id,
act_dt in order, row_key alone marked primary key; a pre-existing table
named subscribers is left with whatever schema it had. -/
theorem C3_schema_on_success (f : Faults) (p : Path) (w : World)
    (hfresh : w.subscribersAt p = none)
    (hok : (initializeAt f p w).result = .ok ()) :
    (initializeAt f p w).world.subscribersAt p = some subscribersTable := by
  have hFind : ([subscribersTable].find? fun t => t.name == "subscribers") =
      some subscribersTable := by decide
  cases hl : w.lookup p with
  | none =>
    have hfalse : Database.hasTable emptyDb "subscribers" = false := by decide
    rcases f with ⟨fc, fe, fm⟩
    rcases fc with _ | ec <;> rcases fe with _ | ee <;> rcases fm with _ | em <;>
      simp [initializeAt, sqliteConnect, hl, execCreate_subscribers, hfalse] at hok ⊢
    simp [World.subscribersAt, World.tablesAt, World.lookup_store_self, emptyDb, hFind]
  | some d =>
    have hfd : (d.tables.find? fun tb => tb.name == "subscribers") = none := by
      simpa [World.subscribersAt, World.tablesAt, hl] using hfresh
    have hfalse : d.hasTable "subscribers" = false := by
      simp [Database.hasTable, hfd]
    have happ := find?_append_of_none (fun tb => tb.name == "subscribers")
      d.tables [subscribersTable] hfd
    rcases f with ⟨fc, fe, fm⟩
    rcases fc with _ | ec <;> rcases fe with _ | ee <;> rcases fm with _ | em <;>
      simp [initializeAt, sqliteConnect, hl, execCreate_subscribers, hfalse] at hok ⊢
    simp [World.subscribersAt, World.tablesAt, World.lookup_store_self, happ, hFind]

/-- Witness for C3 (amended): the fresh location /tmp/test.db over empty
storage, with every engine call succeeding. -/
theorem C3_schema_on_success_witness :
    (initializeAt noFaults "/tmp/test.db" ⟨[]⟩).world.subscribersAt "/tmp/test.db" =
      some subscribersTable :=
  C3_schema_on_success noFaults "/tmp/test.db" ⟨[]⟩ rfl rfl

/-- C4: the routine catches nothing and logs nothing: it prints no output,
it succeeds exactly when every engine call does, and any error it returns
is the very error some engine call raised, unchanged. -/
theorem C4_error_propagation (f : Faults) (p : Path) (w : World) :
    (initializeAt f p w).output = [] ∧
    ((initializeAt f p w).result = .ok () ↔
      f.onConnect = none ∧ f.onExecute = none ∧ f.onCommit = none) ∧
    ∀ e : DbError, (initializeAt f p w).result = .error e →
      f.onConnect = some e ∨ f.onExecute = some e ∨ f.onCommit = some e := by
  refine ⟨initializeAt_output f p w, ?_, ?_⟩ <;>
  · rcases f with ⟨fc, fe, fm⟩
    rcases fc with _ | ec <;> rcases fe with _ | ee <;> rcases fm with _ | em <;>
      cases hl : w.lookup p <;>
        simp [initializeAt, sqliteConnect, hl, execCreate_subscribers]

/-- C5: non-destructive to data.  Whatever subscribers table a location
already holds — rows included — any run of the routine leaves exactly that
table there, whether the run succeeds or an engine call fails. -/
theorem C5_rows_preserved (f : Faults) (p : Path) (w : World) (t : Table)
    (h : w.subscribersAt p = some t) :
    (initializeAt f p w).world.subscribersAt p = some t := by
  cases hl : w.lookup p with
  | none => simp [World.subscribersAt, World.tablesAt, hl] at h
  | some d =>
    have hfd : (d.tables.find? fun tb => tb.name == "subscribers") = some t := by
      simpa [World.subscribersAt, World.tablesAt, hl] using h
    have hT : d.hasTable "subscribers" = true := by
      simp [Database.hasTable, hfd]
    have hst : w.store p d = w := World.store_eq_self w p d hl
    rcases f with ⟨fc, fe, fm⟩
    rcases fc with _ | ec <;> rcases fe with _ | ee <;> rcases fm with _ | em <;>
      simp [initializeAt, sqliteConnect, hl, execCreate_subscribers, hT, hst,
        World.subscribersAt, World.tablesAt, hfd]

/-- A subscribers table with one stored row. -/
def seededTable : Table := ⟨"subscribers", subscribersStmt.columns, [["r1", "s1", "2020-01-01"]]⟩

/-- Storage already holding the seeded subscribers table at db_path. -/
def seededWorld : World := ⟨[(db_path, ⟨[seededTable]⟩)]⟩

/-- Witness for C5: a fault-free run against storage holding one row. -/
theorem C5_rows_preserved_witness :
    (initializeAt noFaults db_path seededWorld).world.subscribersAt db_path =
      some seededTable :=
  C5_rows_preserved noFaults db_path seededWorld seededTable (by decide)

/-- C6: run as a script, the process prints the fixed confirmation message
exactly when initialize_db returned normally; an engine error escapes
uncaught — the process terminates abnormally — and then nothing at all was
printed. -/
theorem C6_main_output (f : Faults) (w : World) :
    ((runModule true f w).output = [successMessage] ↔
      (initialize_db f w).result = .ok ()) ∧
    ((runModule true f w).uncaught = none ↔ (initialize_db f w).result = .ok ()) ∧
    ((runModule true f w).uncaught.isSome = true → (runModule true f w).output = []) := by
  cases hr : (initializeAt f db_path w).result with
  | ok u =>
    cases u
    simp [runModule, moduleBody, evalTop, initState, hr, initialize_db, initializeAt_output]
  | error e =>
    simp [runModule, moduleBody, evalTop, initState, hr, initialize_db, initializeAt_output,
      successMessage]

/-- C7: against a fresh location, a run ending in an error leaves the
visible schema state exactly as before the run: no subscribers table and
no tables at all at that path. -/
theorem C7_fresh_failure_leaves_no_table (f : Faults) (p : Path) (w : World)
    (hfresh : w.lookup p = none) (e : DbError)
    (herr : (initializeAt f p w).result = .error e) :
    (initializeAt f p w).world.tablesAt p = w.tablesAt p ∧
    (initializeAt f p w).world.subscribersAt p = none := by
  have hfalse : Database.hasTable emptyDb "subscribers" = false := by decide
  rcases f with ⟨fc, fe, fm⟩
  rcases fc with _ | ec <;> rcases fe with _ | ee <;> rcases fm with _ | em <;>
    simp [initializeAt, sqliteConnect, hfresh, execCreate_subscribers, hfalse] at herr ⊢ <;>
      simp [World.subscribersAt, World.tablesAt, hfresh, World.lookup_store_self, emptyDb]

/-- Witness for C7: an execute-step error against /tmp/test.db over empty
storage. -/
theorem C7_fresh_failure_witness :
    (initializeAt execFault "/tmp/test.db" ⟨[]⟩).world.tablesAt "/tmp/test.db" =
      World.tablesAt ⟨[]⟩ "/tmp/test.db" ∧
    (initializeAt execFault "/tmp/test.db" ⟨[]⟩).world.subscribersAt "/tmp/test.db" = none :=
  C7_fresh_failure_leaves_no_table execFault "/tmp/test.db" ⟨[]⟩ rfl
    (.operationalError "disk I/O error") rfl

/-- C8: against a path with no file, a fault-free run succeeds and a
database file exists there afterwards; against a path that already holds a
file, no run adds or removes any file on durable storage. -/
theorem C8_file_creation (f : Faults) (p : Path) (w : World) :
    (w.lookup p = none →
      (initializeAt noFaults p w).result = .ok () ∧
      ((initializeAt noFaults p w).world.lookup p).isSome = true) ∧
    ((w.lookup p).isSome = true → (initializeAt f p w).world.paths = w.paths) := by
  have hfalse : Database.hasTable emptyDb "subscribers" = false := by decide
  constructor
  · intro h
    constructor
    · simp [initializeAt, noFaults, sqliteConnect, h, execCreate_subscribers, hfalse]
    · simp [initializeAt, noFaults, sqliteConnect, h, execCreate_subscribers, hfalse,
        World.lookup_store_self]
  · intro h
    have hps : ∀ d : Database, (w.store p d).paths = w.paths := fun d =>
      World.paths_store w p d h
    cases hl : w.lookup p with
    | none => simp [hl] at h
    | some d =>
      rcases f with ⟨fc, fe, fm⟩
      rcases fc with _ | ec <;> rcases fe with _ | ee <;> rcases fm with _ | em <;>
        simp [initializeAt, sqliteConnect, hl, execCreate_subscribers, hps]

/-- A location distinct from the hard-coded db_path. -/
def otherPath : Path := "/tmp/test.db"

/-- C9: counterexample.  The routine accepts no storage-location input: a
fault-free run over empty storage touches only the hard-coded db_path —
nothing appears at any other location a caller might have wanted to name,
so there is no initialize(storage_location) signature to invoke. -/
theorem C9_counterexample :
    otherPath ≠ db_path ∧
    (initialize_db noFaults ⟨[]⟩).result = .ok () ∧
    (initialize_db noFaults ⟨[]⟩).world.lookup otherPath = none ∧
    ((initialize_db noFaults ⟨[]⟩).world.lookup db_path).isSome = true := by
  decide

/-- C9 (amended): initialize_db takes no parameters; it behaves exactly as
the location-parametric operation applied to the module constant db_path,
and on success its only returned value is Python's None (the unit value). -/
theorem C9_fixed_location (f : Faults) (w : World) :
    initialize_db f w = initializeAt f db_path w ∧
    ((initialize_db f w).result = .ok () ∨
      ∃ e, (initialize_db f w).result = .error e) := by
  refine ⟨rfl, ?_⟩
  cases hr : (initialize_db f w).result with
  | ok u => exact Or.inl rfl
  | error e => exact Or.inr ⟨e, rfl⟩

/-- C10: importing the module is pure — durable storage is untouched,
nothing is printed, no exception escapes — and module evaluation only binds
db_path and defines the initializer; the connect, the table creation and
the print happen only under the __main__ guard. -/
theorem C10_import_is_pure (f : Faults) (w : World) :
    (runModule false f w).world = w ∧
    (runModule false f w).output = [] ∧
    (runModule false f w).uncaught = none ∧
    (runModule false f w).boundDbPath = some db_path ∧
    (runModule false f w).definedInitializeDb = true :=
  ⟨rfl, rfl, rfl, rfl, rfl⟩

end DbInit
